import Mathlib

/-!
# Verification of the data-access layer in `express_server/queries.ts`

A shallow embedding of the query module of the COP4710 e-commerce
project.  The module is a flat set of functions over a shared database
connection: read operations are single parameterized `SELECT`s, write
operations wrap one mutating statement in an explicit
`BEGIN` / statement / `COMMIT` sequence whose failures are caught,
logged, rolled back and swallowed (the function then returns
`undefined`).

The embedding models:

* the relational state (`DB`): tables `Users`, `Shops`, `Sellers`,
  `Products`, `Orders` as lists of row records, plus the server-side
  clock (`currentDate`, `currentTimestamp`) and the serial-id counters;
* each query function of the module as a Lean function on `DB`;
* the transactional write pattern as `runWrite`, which follows the
  `try { BEGIN; [LOCK;] stmt; COMMIT } catch { log; ROLLBACK }` shape of
  the source, including an environmental fault parameter (`faultAt`) so
  that a failure of any statement of the sequence — not only a
  constraint violation of the mutating statement — can be analysed;
* the SQL `LIKE` pattern language (`likeMatch`), used by the two search
  queries, which bind the pattern `'%' ++ searchStr ++ '%'` against
  `LOWER(name)`.
-/

/-! ## Row types and caller-supplied records

Field names and types follow the columns referenced by the queries and
the interfaces used in `queries.ts` (`ISignUpInfo`, `ICreateShopInfo`,
`ICreateProductInfo`, `ICreateOrderInfo`, `IUserInfoView`).  TypeScript
`string` becomes `String`; TypeScript `number` (price, quantity) becomes
`Int` — the code performs no range check, so negative values are
representable. -/

/-- A row of the `Users` table: serial `userid`, `email`, `firstname`,
`lastname`, `dob`, `password`. -/
structure UserRow where
  userid : String
  email : String
  firstname : String
  lastname : String
  dob : String
  password : String
deriving Repr, DecidableEq

/-- A row of the `Shops` table: serial `shopid`, `shopname`,
`establishdate`, `description`, `owner`. -/
structure ShopRow where
  shopid : String
  shopname : String
  establishdate : String
  description : String
  owner : String
deriving Repr, DecidableEq

/-- A row of the `Products` table: `shopid`, serial `productid`,
`name`, `price`, `quantity`, `description`. -/
structure ProductRow where
  shopid : String
  productid : String
  name : String
  price : Int
  quantity : Int
  description : String
deriving Repr, DecidableEq

/-- A row of the `Orders` table: serial `orderid`, `buyer`, `shop`,
`product`, `quantity`, `ordertime`. -/
structure OrderRow where
  orderid : String
  buyer : String
  shop : String
  product : String
  quantity : Int
  ordertime : String
deriving Repr, DecidableEq

/-- `ISignUpInfo`: the caller-supplied record bound by `createUser`
(fields read at lines 112–116 of `queries.ts`). -/
structure ISignUpInfo where
  email : String
  firstname : String
  lastname : String
  dob : String
  password : String
deriving Repr, DecidableEq

/-- `ICreateShopInfo`: the caller-supplied record bound by `createShop`
(fields read at line 223 of `queries.ts`).  It carries no date field. -/
structure ICreateShopInfo where
  shopname : String
  description : String
  ownerid : String
deriving Repr, DecidableEq

/-- `ICreateProductInfo`: the caller-supplied record bound by
`createProduct` (fields read at lines 280–284 of `queries.ts`). -/
structure ICreateProductInfo where
  shopid : String
  price : Int
  name : String
  quantity : Int
  description : String
deriving Repr, DecidableEq

/-- `ICreateOrderInfo`: the caller-supplied record bound by
`createOrder` (fields read at lines 332–335 of `queries.ts`). -/
structure ICreateOrderInfo where
  userid : String
  shopid : String
  productid : String
  quantity : Int
deriving Repr, DecidableEq

/-- `IUserInfoView`: a row of the `UserInfoView` view, also the
caller-supplied record bound by `updateUserData` (fields read at lines
472–478 of `queries.ts`). -/
structure IUserInfoView where
  userid : String
  firstname : String
  lastname : String
  email : String
  dob : String
  password : String
deriving Repr, DecidableEq

/-- The database state: one list of rows per table, the server clock,
and the serial-id counters used by the `INSERT`s.  The module itself is
stateless apart from the shared connection, so this is the whole state
the queries act on. -/
structure DB where
  users : List UserRow
  shops : List ShopRow
  sellers : List String
  products : List ProductRow
  orders : List OrderRow
  currentDate : String
  currentTimestamp : String
  nextUserId : Nat
  nextShopId : Nat
  nextProductId : Nat
  nextOrderId : Nat
deriving Repr, DecidableEq

/-! ## Views

Modelled from the spec: the views `UserInfoView`, `ShopInfoView`,
`ProductInfoView` are part of the relational schema, which is external
to this module ("a relational schema with tables … and views … that the
module queries directly; this module never creates or migrates
schema").  The spec's data-model table lists for each entity exactly
the attributes of the corresponding base table, so each view is the
identity view of its base table. -/

/-- Modelled from the spec: `UserInfoView` exposes the rows of `Users`
(id, email, first/last name, date of birth, password). -/
def userInfoView (db : DB) : List IUserInfoView :=
  db.users.map fun u =>
    ⟨u.userid, u.firstname, u.lastname, u.email, u.dob, u.password⟩

/-- Modelled from the spec: `ShopInfoView` exposes the rows of
`Shops`. -/
def shopInfoView (db : DB) : List ShopRow :=
  db.shops

/-- Modelled from the spec: `ProductInfoView` exposes the rows of
`Products`. -/
def productInfoView (db : DB) : List ProductRow :=
  db.products

/-! ## SQL errors and the statements of the write path -/

/-- The failure modes of a mutating statement: a constraint violation
reported by the database (unique key or foreign key, modelled from the
spec's invariants "emails unique" and "order references must point to
existing shop/product/user (enforced by foreign keys external to this
module)"), or an environmental failure (connection loss, lock timeout)
of any statement of the sequence. -/
inductive SqlError where
  | uniqueViolation (constraint : String)
  | fkViolation (constraint : String)
  | environmental
deriving Repr, DecidableEq

/-- The statements the module issues, as they appear in the query
strings of `queries.ts`. -/
inductive Stmt where
  | begin
  | commit
  | rollback
  | lockTable (table : String)
  | insertUsers
  | insertShops
  | insertSellers
  | insertProducts
  | insertOrders
  | updateProducts
  | updateUsers
deriving Repr, DecidableEq

/-- The seven write operations of the module, each carrying the
caller-supplied arguments of the corresponding function. -/
inductive WriteOp where
  | createUser (userInfo : ISignUpInfo)
  | createShop (shopInfo : ICreateShopInfo)
  | makeSeller (userID : String)
  | createProduct (productInfo : ICreateProductInfo)
  | createOrder (createOrderInfo : ICreateOrderInfo)
  | setProductQuantity (shopid : String) (productid : String) (newQuantity : Int)
  | updateUserData (newUserInfo : IUserInfoView)
deriving Repr, DecidableEq

/-- The mutating statement each write operation issues between `BEGIN`
and `COMMIT`. -/
def mutStmtOf : WriteOp → Stmt
  | .createUser _ => .insertUsers
  | .createShop _ => .insertShops
  | .makeSeller _ => .insertSellers
  | .createProduct _ => .insertProducts
  | .createOrder _ => .insertOrders
  | .setProductQuantity _ _ _ => .updateProducts
  | .updateUserData _ => .updateUsers

/-- The table each of the two locking operations locks before its
`UPDATE` (`LOCK TABLE Products IN ACCESS EXCLUSIVE MODE;` at line 364,
`LOCK TABLE Users IN ACCESS EXCLUSIVE MODE;` at line 459); the other
write operations take no lock. -/
def lockOf : WriteOp → Option String
  | .setProductQuantity _ _ _ => some "Products"
  | .updateUserData _ => some "Users"
  | _ => none

/-- The `console.error` message of each operation's `catch` branch. -/
def errMsgOf : WriteOp → String
  | .createUser _ => "Failed to create user: "
  | .createShop _ => "Failed to create shop: "
  | .makeSeller _ => "Failed to add user as a seller: "
  | .createProduct _ => "Failed to create product: "
  | .createOrder _ => "Failed to create new order: "
  | .setProductQuantity _ _ _ => "Failed to update product quantity: "
  | .updateUserData _ => "Failed to update user info:"

/-! ## Semantics of the mutating statements

Each `INSERT`/`UPDATE` acts on the working copy of the state inside the
open transaction.  Constraint checks are modelled from the spec's
invariants (the schema itself is external to the module): emails
unique; seller ids unique and referencing users; shop owner, product
shop and order references must point to existing rows. -/

/-- `INSERT INTO Users (Email, FirstName, LastName, DOB, Password)`:
fails on a duplicate email (unique constraint, modelled from the spec
invariant "emails unique"); otherwise appends a row with the next
serial `userid`. -/
def insertUsersStmt (userInfo : ISignUpInfo) (db : DB) : Except SqlError DB :=
  if db.users.any fun u => u.email = userInfo.email then
    .error (.uniqueViolation "users_email_key")
  else
    .ok { db with
      users := db.users ++ [⟨toString db.nextUserId, userInfo.email,
        userInfo.firstname, userInfo.lastname, userInfo.dob,
        userInfo.password⟩]
      nextUserId := db.nextUserId + 1 }

/-- `INSERT INTO Shops (ShopName, EstablishDate, Description, Owner)
VALUES (?, CURRENT_DATE, ?, ?)`: the establish date is the database's
`CURRENT_DATE`, no bound parameter flows into it.  Fails if the owner
does not reference an existing user (foreign key, modelled from the
spec's data model "owner (→ User)"). -/
def insertShopsStmt (shopInfo : ICreateShopInfo) (db : DB) : Except SqlError DB :=
  if db.users.any fun u => u.userid = shopInfo.ownerid then
    .ok { db with
      shops := db.shops ++ [⟨toString db.nextShopId, shopInfo.shopname,
        db.currentDate, shopInfo.description, shopInfo.ownerid⟩]
      nextShopId := db.nextShopId + 1 }
  else
    .error (.fkViolation "shops_owner_fkey")

/-- `INSERT INTO Sellers (sellerid) VALUES (?)`: fails if the user is
already a seller (primary key) or does not exist (foreign key, modelled
from the spec's data model "Seller | id (→ User)"). -/
def insertSellersStmt (userID : String) (db : DB) : Except SqlError DB :=
  if db.sellers.any fun s => s = userID then
    .error (.uniqueViolation "sellers_pkey")
  else if db.users.any fun u => u.userid = userID then
    .ok { db with sellers := db.sellers ++ [userID] }
  else
    .error (.fkViolation "sellers_sellerid_fkey")

/-- `INSERT INTO Products (shopid, price, name, quantity, description)`:
fails if the shop does not exist (foreign key, modelled from the spec's
data model "Product | shop (→ Shop)"); no check on `quantity` — the
spec flags non-negativity as "not enforced in shown code". -/
def insertProductsStmt (productInfo : ICreateProductInfo) (db : DB) :
    Except SqlError DB :=
  if db.shops.any fun s => s.shopid = productInfo.shopid then
    .ok { db with
      products := db.products ++ [⟨productInfo.shopid,
        toString db.nextProductId, productInfo.name, productInfo.price,
        productInfo.quantity, productInfo.description⟩]
      nextProductId := db.nextProductId + 1 }
  else
    .error (.fkViolation "products_shopid_fkey")

/-- `INSERT INTO Orders (Buyer, Shop, Product, Quantity, OrderTime)
VALUES (?, ?, ?, ?, CURRENT_TIMESTAMP)`: the order time is the
database's `CURRENT_TIMESTAMP`.  Fails unless buyer, shop and product
reference existing rows (foreign keys, modelled from the spec invariant
"order references must point to existing shop/product/user"). -/
def insertOrdersStmt (createOrderInfo : ICreateOrderInfo) (db : DB) :
    Except SqlError DB :=
  if ¬ db.users.any fun u => u.userid = createOrderInfo.userid then
    .error (.fkViolation "orders_buyer_fkey")
  else if ¬ db.shops.any fun s => s.shopid = createOrderInfo.shopid then
    .error (.fkViolation "orders_shop_fkey")
  else if ¬ db.products.any fun p =>
      p.shopid = createOrderInfo.shopid ∧
      p.productid = createOrderInfo.productid then
    .error (.fkViolation "orders_product_fkey")
  else
    .ok { db with
      orders := db.orders ++ [⟨toString db.nextOrderId,
        createOrderInfo.userid, createOrderInfo.shopid,
        createOrderInfo.productid, createOrderInfo.quantity,
        db.currentTimestamp⟩]
      nextOrderId := db.nextOrderId + 1 }

/-- `UPDATE Products SET quantity = ? WHERE shopid = ? AND
productid = ?`: sets the quantity of every matching row; no constraint
can fail (the spec records no check on quantity). -/
def updateProductsStmt (shopid productid : String) (newQuantity : Int)
    (db : DB) : Except SqlError DB :=
  .ok { db with
    products := db.products.map fun p =>
      if p.shopid = shopid ∧ p.productid = productid then
        { p with quantity := newQuantity }
      else p }

/-- `UPDATE Users SET (userid, firstname, lastname, email, dob,
password) = (?, ?, ?, ?, ?, ?) WHERE userid = ?`: rewrites every row
whose `userid` equals `newUserInfo.userid` with the supplied values
(including `userid` itself, bound to the same value).  Fails if the
update would give a matched row the email of a different user (unique
constraint, modelled from the spec invariant "emails unique"). -/
def updateUsersStmt (newUserInfo : IUserInfoView) (db : DB) :
    Except SqlError DB :=
  if (db.users.any fun u => u.userid = newUserInfo.userid) ∧
      db.users.any fun u =>
        u.userid ≠ newUserInfo.userid ∧ u.email = newUserInfo.email then
    .error (.uniqueViolation "users_email_key")
  else
    .ok { db with
      users := db.users.map fun u =>
        if u.userid = newUserInfo.userid then
          ⟨newUserInfo.userid, newUserInfo.email, newUserInfo.firstname,
            newUserInfo.lastname, newUserInfo.dob, newUserInfo.password⟩
        else u }

/-- Dispatch of the mutating statement of each write operation. -/
def applyMut : WriteOp → DB → Except SqlError DB
  | .createUser userInfo => insertUsersStmt userInfo
  | .createShop shopInfo => insertShopsStmt shopInfo
  | .makeSeller userID => insertSellersStmt userID
  | .createProduct productInfo => insertProductsStmt productInfo
  | .createOrder createOrderInfo => insertOrdersStmt createOrderInfo
  | .setProductQuantity shopid productid q =>
      updateProductsStmt shopid productid q
  | .updateUserData newUserInfo => updateUsersStmt newUserInfo

/-! ## The transactional write pattern

Every write function of `queries.ts` has the shape

```
try {
  await query("BEGIN;");
  [await query("LOCK TABLE … IN ACCESS EXCLUSIVE MODE;");]
  await query(mutatingStatement, replacements);
  await query("COMMIT;");
  console.log(results);
  return results;            // the statement's metadata
} catch (error) {
  console.error("Failed to …", error);
  await query("ROLLBACK;");
}                            // falls through: returns undefined
```

`runWrite` executes this shape.  `faultAt` injects an environmental
failure into the statement with that issue-order index (`none` = no
environmental fault); a constraint violation of the mutating statement
fails that statement as well.  The first failing statement raises the
exception: the `catch` branch logs the error message and issues
`ROLLBACK`, which discards the open transaction, so the committed state
reverts to the state at entry; the function returns `undefined`
(modelled as `none`). -/

/-- The result of a write operation: the committed database state
afterwards, the value returned to the caller (`none` = `undefined`),
the trace of statements issued on the connection, in order, and the
`console.error` log. -/
structure WriteResult where
  db : DB
  ret : Option Unit
  trace : List Stmt
  log : List String
deriving Repr, DecidableEq

/-- Whether the statement with issue-order index `i` suffers an
environmental failure. -/
def envFails (faultAt : Option Nat) (i : Nat) : Bool :=
  faultAt = some i

/-- The `try`/`catch` write pattern of `queries.ts` (see the section
comment above). -/
def runWrite (op : WriteOp) (faultAt : Option Nat) (db : DB) : WriteResult :=
  -- BEGIN; (issue index 0)
  if envFails faultAt 0 then
    ⟨db, none, [.begin, .rollback], [errMsgOf op]⟩
  else
    match lockOf op with
    | some t =>
      -- LOCK TABLE t IN ACCESS EXCLUSIVE MODE; (issue index 1)
      if envFails faultAt 1 then
        ⟨db, none, [.begin, .lockTable t, .rollback], [errMsgOf op]⟩
      -- the mutating statement (issue index 2)
      else if envFails faultAt 2 then
        ⟨db, none, [.begin, .lockTable t, mutStmtOf op, .rollback],
          [errMsgOf op]⟩
      else
        match applyMut op db with
        | .error _ =>
          ⟨db, none, [.begin, .lockTable t, mutStmtOf op, .rollback],
            [errMsgOf op]⟩
        | .ok db' =>
          -- COMMIT; (issue index 3)
          if envFails faultAt 3 then
            ⟨db, none, [.begin, .lockTable t, mutStmtOf op, .commit,
              .rollback], [errMsgOf op]⟩
          else
            ⟨db', some (), [.begin, .lockTable t, mutStmtOf op, .commit],
              []⟩
    | none =>
      -- the mutating statement (issue index 1)
      if envFails faultAt 1 then
        ⟨db, none, [.begin, mutStmtOf op, .rollback], [errMsgOf op]⟩
      else
        match applyMut op db with
        | .error _ =>
          ⟨db, none, [.begin, mutStmtOf op, .rollback], [errMsgOf op]⟩
        | .ok db' =>
          -- COMMIT; (issue index 2)
          if envFails faultAt 2 then
            ⟨db, none, [.begin, mutStmtOf op, .commit, .rollback],
              [errMsgOf op]⟩
          else
            ⟨db', some (), [.begin, mutStmtOf op, .commit], []⟩

/-! ## The SQL `LIKE` pattern language

The two search queries bind the pattern `'%' + searchStr + '%'` against
`LOWER(name)` / `LOWER(shopname)`.  `likeMatch p t` is SQL `LIKE`:
`'%'` matches any (possibly empty) sequence, `'_'` matches exactly one
character, every other pattern character matches itself. -/

/-- `likeTails f t`: whether `f` accepts some suffix of `t` (including
`t` itself) — the semantics of a leading `%` wildcard applied to the
rest of the pattern. -/
def likeTails (f : List Char → Bool) : List Char → Bool
  | [] => f []
  | d :: ts => f (d :: ts) || likeTails f ts

/-- SQL `LIKE` matching of a pattern (list of characters, with
wildcards `%` and `_`) against a text: `%` matches any sequence of
characters, `_` matches exactly one character, every other pattern
character matches itself. -/
def likeMatch : List Char → List Char → Bool
  | [], t => t.isEmpty
  | p :: ps, t =>
    if p = '%' then likeTails (likeMatch ps) t
    else
      match t with
      | [] => false
      | d :: ts => (if p = '_' then true else p = d) && likeMatch ps ts

/-- `LOWER` of a string, character-wise, as the text side of the two
search queries applies it. -/
def lowerStr (s : String) : List Char :=
  s.data.map Char.toLower

/-! ## The read operations

Each read is a single parameterized `SELECT` against the committed
state; the result list is returned unfiltered to the caller. -/

/-- `SELECT * FROM ShopInfoView` (`getAllShopsInfo`, line 22). -/
def getAllShopsInfo (db : DB) : List ShopRow :=
  shopInfoView db

/-- `SELECT * FROM ProductInfoView WHERE shopid = ?`
(`getAllProductsOfAShop`, lines 40–43). -/
def getAllProductsOfAShop (ShopID : String) (db : DB) : List ProductRow :=
  (productInfoView db).filter fun p => p.shopid = ShopID

/-- `SELECT * FROM ShopInfoView WHERE shopid = ?` (`getShopInfo`,
line 62). -/
def getShopInfo (ShopID : String) (db : DB) : List ShopRow :=
  (shopInfoView db).filter fun s => s.shopid = ShopID

/-- `SELECT EXISTS (SELECT * FROM users WHERE email = ?)`
(`checkIfUserExists`, line 82). -/
def checkIfUserExists (email : String) (db : DB) : Bool :=
  db.users.any fun u => u.email = email

/-- `SELECT * FROM UserInfoView WHERE email = ?` (`getUserInfoByEmail`,
line 138). -/
def getUserInfoByEmail (email : String) (db : DB) : List IUserInfoView :=
  (userInfoView db).filter fun u => u.email = email

/-- `SELECT * FROM UserInfoView WHERE userid = ?` (`getUserInfoByID`,
line 157). -/
def getUserInfoByID (userid : String) (db : DB) : List IUserInfoView :=
  (userInfoView db).filter fun u => u.userid = userid

/-- `SELECT * FROM UserInfoView WHERE email = ? AND password = ?`
(`getUserByEmailAndPassword`, line 177): the supplied password is bound
as-is into an equality comparison. -/
def getUserByEmailAndPassword (email : String) (password : String)
    (db : DB) : List IUserInfoView :=
  (userInfoView db).filter fun u => u.email = email ∧ u.password = password

/-- `SELECT * FROM ShopInfoView WHERE ownerid = ?`
(`getShopsOwnedByUser`, line 196). -/
def getShopsOwnedByUser (userid : String) (db : DB) : List ShopRow :=
  (shopInfoView db).filter fun s => s.owner = userid

/-- `SELECT * FROM OrdersInfoView WHERE buyer = ?` (`getUsersOrders`,
line 305). -/
def getUsersOrders (userid : String) (db : DB) : List OrderRow :=
  db.orders.filter fun o => o.buyer = userid

/-- `SELECT * FROM Products WHERE shopid = ? AND productid = ?`
(`getProduct`, line 397). -/
def getProduct (shopid : String) (productid : String) (db : DB) :
    List ProductRow :=
  db.products.filter fun p => p.shopid = shopid ∧ p.productid = productid

/-- `SELECT * FROM ProductInfoView WHERE shopid = ? AND LOWER(name)
LIKE ?` with replacement `` `%${searchStr}%` `` (`getProductsOfShopLike`,
lines 416–423): the pattern is the search string wrapped in `%`,
matched against the lowercased name; the search string itself is not
lowercased and its wildcard characters are not escaped. -/
def getProductsOfShopLike (shopid : String) (searchStr : String)
    (db : DB) : List ProductRow :=
  (productInfoView db).filter fun p =>
    p.shopid = shopid ∧
    likeMatch ('%' :: (searchStr.data ++ ['%'])) (lowerStr p.name)

/-- `SELECT * FROM ShopInfoView WHERE LOWER(shopname) LIKE ?` with
replacement `` `%${searchStr}%` `` (`getShopsLike`, lines 437–443). -/
def getShopsLike (searchStr : String) (db : DB) : List ShopRow :=
  (shopInfoView db).filter fun s =>
    likeMatch ('%' :: (searchStr.data ++ ['%'])) (lowerStr s.shopname)

/-! ## Spec-side search semantics

For the refinement claim about the search operations, the spec's words
("returns exactly the subset of existing rows whose name contains S
case-insensitively") get their own definitions, to be compared with the
ones above that embed the code. -/

/-- `isPrefixChars s t`: `s` occurs at the start of `t`. -/
def isPrefixChars : List Char → List Char → Bool
  | [], _ => true
  | _ :: _, [] => false
  | c :: cs, d :: ds => c = d && isPrefixChars cs ds

/-- `isInfixChars s t`: `s` occurs contiguously somewhere in `t`. -/
def isInfixChars (s : List Char) : List Char → Bool
  | [] => isPrefixChars s []
  | d :: ds => isPrefixChars s (d :: ds) || isInfixChars s ds

/-- The spec's words: the name contains the search string
case-insensitively (both sides lowercased, plain containment). -/
def containsCI (name searchStr : String) : Bool :=
  isInfixChars (searchStr.data.map Char.toLower) (lowerStr name)

/-- The spec's words for `getShopsLike`: exactly the shops whose
`shopname` contains the search string case-insensitively. -/
def shopsContainingCI (searchStr : String) (db : DB) : List ShopRow :=
  (shopInfoView db).filter fun s => containsCI s.shopname searchStr

/-- The spec's words for `getProductsOfShopLike`: exactly the shop's
products whose `name` contains the search string case-insensitively. -/
def productsOfShopContainingCI (shopid : String) (searchStr : String)
    (db : DB) : List ProductRow :=
  (productInfoView db).filter fun p =>
    p.shopid = shopid ∧ containsCI p.name searchStr

/-! ## A concrete database state

One user, one shop (owned by that user, who is a seller), one product
with quantity `5`.  Used by the concrete witnesses and
counterexamples. -/

/-- A small concrete database state. -/
def dbEx : DB :=
  { users := [⟨"1", "a@b.c", "Al", "Bo", "2000-01-01", "pw"⟩]
    shops := [⟨"1", "Apple", "2020-01-01", "fruit", "1"⟩]
    sellers := ["1"]
    products := [⟨"1", "1", "Mac", 9, 5, "laptop"⟩]
    orders := []
    currentDate := "2024-01-01"
    currentTimestamp := "2024-01-01 00:00"
    nextUserId := 2
    nextShopId := 2
    nextProductId := 2
    nextOrderId := 1 }

/-! ## Failure of the write sequence -/

/-- The number of statements of a write operation's
`BEGIN`/…/`COMMIT` sequence (not counting the `ROLLBACK` of the
`catch` branch): `BEGIN`, the lock for the two locking operations, the
mutating statement, `COMMIT`. -/
def seqLen (op : WriteOp) : Nat :=
  match lockOf op with
  | some _ => 4
  | none => 3

/-- Some statement of the operation's `BEGIN`/…/`COMMIT` sequence
fails: an environmental fault hits one of the statements the sequence
issues, or the mutating statement reports a constraint violation. -/
def writeFails (op : WriteOp) (faultAt : Option Nat) (db : DB) : Prop :=
  (∃ i, faultAt = some i ∧ i < seqLen op) ∨
  ∃ e, applyMut op db = .error e

theorem envFails_eq_true {faultAt : Option Nat} {i : Nat} :
    envFails faultAt i = true ↔ faultAt = some i := by
  simp [envFails]

/-- On any failure of the write sequence, the write pattern leaves the
committed state at its entry value, returns `undefined`, logs the
operation's error message, and ends its statement trace with
`ROLLBACK`. -/
theorem runWrite_fail (op : WriteOp) (faultAt : Option Nat) (db : DB)
    (h : writeFails op faultAt db) :
    (runWrite op faultAt db).db = db ∧
    (runWrite op faultAt db).ret = none ∧
    (runWrite op faultAt db).log = [errMsgOf op] ∧
    (runWrite op faultAt db).trace.getLast? = some .rollback := by
  unfold runWrite
  split
  · exact ⟨rfl, rfl, rfl, rfl⟩
  next h0 =>
    split
    next t hlock =>
      split
      · exact ⟨rfl, rfl, rfl, rfl⟩
      next h1 =>
        split
        · exact ⟨rfl, rfl, rfl, rfl⟩
        next h2 =>
          split
          next e heq => exact ⟨rfl, rfl, rfl, rfl⟩
          next db' heq =>
            split
            · exact ⟨rfl, rfl, rfl, rfl⟩
            next h3 =>
              exfalso
              rcases h with ⟨i, hi, hlt⟩ | ⟨e, he⟩
              · simp only [seqLen, hlock] at hlt
                interval_cases i
                · exact h0 (envFails_eq_true.mpr hi)
                · exact h1 (envFails_eq_true.mpr hi)
                · exact h2 (envFails_eq_true.mpr hi)
                · exact h3 (envFails_eq_true.mpr hi)
              · rw [heq] at he
                exact Except.noConfusion he
    next hlock =>
      split
      · exact ⟨rfl, rfl, rfl, rfl⟩
      next h1 =>
        split
        next e heq => exact ⟨rfl, rfl, rfl, rfl⟩
        next db' heq =>
          split
          · exact ⟨rfl, rfl, rfl, rfl⟩
          next h2 =>
            exfalso
            rcases h with ⟨i, hi, hlt⟩ | ⟨e, he⟩
            · simp only [seqLen, hlock] at hlt
              interval_cases i
              · exact h0 (envFails_eq_true.mpr hi)
              · exact h1 (envFails_eq_true.mpr hi)
              · exact h2 (envFails_eq_true.mpr hi)
            · rw [heq] at he
              exact Except.noConfusion he

/-- C1: For every write operation, if any statement in its
`BEGIN`/statement/`COMMIT` sequence fails, the operation issues
`ROLLBACK` (the last statement of its trace), logs the error message of
its `catch` branch, and returns an undefined result (`none`) to the
caller — not a propagated error and not a distinguishable failure
value. -/
theorem write_failure_swallowed_after_rollback
    (op : WriteOp) (faultAt : Option Nat) (db : DB)
    (h : writeFails op faultAt db) :
    (runWrite op faultAt db).ret = none ∧
    (runWrite op faultAt db).trace.getLast? = some .rollback ∧
    (runWrite op faultAt db).log = [errMsgOf op] :=
  ⟨(runWrite_fail op faultAt db h).2.1,
    (runWrite_fail op faultAt db h).2.2.2,
    (runWrite_fail op faultAt db h).2.2.1⟩

/-- Witness for C1: `createUser` with the already-present email
`"a@b.c"` fails its `INSERT` on the unique-email constraint; the
operation returns `undefined`, ends with `ROLLBACK`, and logs
`"Failed to create user: "`. -/
theorem write_failure_swallowed_after_rollback_witness :
    writeFails (.createUser ⟨"a@b.c", "X", "Y", "2001-02-03", "p"⟩) none dbEx ∧
    ((runWrite (.createUser ⟨"a@b.c", "X", "Y", "2001-02-03", "p"⟩) none dbEx).ret
        = none ∧
      (runWrite (.createUser ⟨"a@b.c", "X", "Y", "2001-02-03", "p"⟩) none
          dbEx).trace.getLast? = some .rollback ∧
      (runWrite (.createUser ⟨"a@b.c", "X", "Y", "2001-02-03", "p"⟩) none
          dbEx).log = ["Failed to create user: "]) :=
  have h : writeFails (.createUser ⟨"a@b.c", "X", "Y", "2001-02-03", "p"⟩)
      none dbEx :=
    Or.inr ⟨.uniqueViolation "users_email_key", rfl⟩
  ⟨h, write_failure_swallowed_after_rollback _ none dbEx h⟩

/-- C2: For every write operation whose sequence fails, the database
table state after the operation completes is identical to the state
before it began: the `ROLLBACK` of the error branch discards the open
transaction, so the committed state — and with it every subsequent
read — is exactly the original one. -/
theorem write_failure_leaves_state_unchanged
    (op : WriteOp) (faultAt : Option Nat) (db : DB)
    (h : writeFails op faultAt db) :
    (runWrite op faultAt db).db = db :=
  (runWrite_fail op faultAt db h).1

/-- Witness for C2: `makeSeller "1"` fails (user `"1"` is already a
seller, a primary-key violation); the whole database state is the
original one, as a subsequent read would observe. -/
theorem write_failure_leaves_state_unchanged_witness :
    writeFails (.makeSeller "1") none dbEx ∧
    (runWrite (.makeSeller "1") none dbEx).db = dbEx :=
  have h : writeFails (.makeSeller "1") none dbEx :=
    Or.inr ⟨.uniqueViolation "sellers_pkey", rfl⟩
  ⟨h, write_failure_leaves_state_unchanged _ none dbEx h⟩

/-- C3: For every existing product identified by `(shopid, productid)`
and every quantity `N`, running `setProductQuantity shopid productid N`
(no fault, so the transaction commits) and then immediately
`getProduct shopid productid` on the resulting state returns a
non-empty list of product rows, each of whose `quantity` field equals
`N`. -/
theorem setProductQuantity_then_getProduct
    (shopid productid : String) (N : Int) (db : DB)
    (h : getProduct shopid productid db ≠ []) :
    getProduct shopid productid
        (runWrite (.setProductQuantity shopid productid N) none db).db ≠ [] ∧
    ∀ r ∈ getProduct shopid productid
        (runWrite (.setProductQuantity shopid productid N) none db).db,
      r.quantity = N := by
  have hdb : (runWrite (.setProductQuantity shopid productid N) none db).db =
      { db with products := db.products.map fun p =>
          if p.shopid = shopid ∧ p.productid = productid then
            { p with quantity := N } else p } := rfl
  rw [hdb]
  constructor
  · obtain ⟨r, hr⟩ := List.exists_mem_of_ne_nil _ h
    rw [getProduct, List.mem_filter] at hr
    obtain ⟨hmem, hcond⟩ := hr
    simp only [decide_eq_true_eq] at hcond
    apply List.ne_nil_of_mem (a := { r with quantity := N })
    rw [getProduct, List.mem_filter]
    constructor
    · exact List.mem_map.mpr ⟨r, hmem, by simp [hcond]⟩
    · simpa using hcond
  · intro r hr
    rw [getProduct, List.mem_filter] at hr
    obtain ⟨hmem, hcond⟩ := hr
    simp only [decide_eq_true_eq] at hcond
    obtain ⟨p, hp, rfl⟩ := List.mem_map.mp hmem
    by_cases hc : p.shopid = shopid ∧ p.productid = productid
    · simp [hc]
    · simp only [if_neg hc] at hcond ⊢
      exact absurd hcond hc

/-- Witness for C3: the product `("1", "1")` exists in `dbEx`; setting
its quantity to `7` and reading it back gives a non-empty result all of
whose rows carry quantity `7`. -/
theorem setProductQuantity_then_getProduct_witness :
    getProduct "1" "1" dbEx ≠ [] ∧
    (getProduct "1" "1"
        (runWrite (.setProductQuantity "1" "1" 7) none dbEx).db ≠ [] ∧
      ∀ r ∈ getProduct "1" "1"
          (runWrite (.setProductQuantity "1" "1" 7) none dbEx).db,
        r.quantity = 7) :=
  have h : getProduct "1" "1" dbEx ≠ [] := by decide
  ⟨h, setProductQuantity_then_getProduct "1" "1" 7 dbEx h⟩

/-- The committed state after a write is either unchanged (some
statement failed and the transaction rolled back) or the successful
result of the operation's single mutating statement. -/
theorem runWrite_db_cases (op : WriteOp) (faultAt : Option Nat) (db : DB) :
    (runWrite op faultAt db).db = db ∨
    applyMut op db = .ok (runWrite op faultAt db).db := by
  unfold runWrite
  split
  · exact Or.inl rfl
  split
  next t hlock =>
    split
    · exact Or.inl rfl
    split
    · exact Or.inl rfl
    split
    · exact Or.inl rfl
    next db' heq =>
      split
      · exact Or.inl rfl
      · exact Or.inr heq
  next hlock =>
    split
    · exact Or.inl rfl
    split
    · exact Or.inl rfl
    next db' heq =>
      split
      · exact Or.inl rfl
      · exact Or.inr heq

/-- With no environmental fault and a successful mutating statement,
the write pattern commits the statement's result and returns it to the
caller. -/
theorem runWrite_ok (op : WriteOp) (db db' : DB)
    (h : applyMut op db = .ok db') :
    (runWrite op none db).db = db' ∧ (runWrite op none db).ret = some () := by
  unfold runWrite
  have henv : ∀ i, envFails none i = false := fun i => rfl
  simp only [henv, Bool.false_eq_true, if_false]
  split
  · rw [h]; exact ⟨rfl, rfl⟩
  · rw [h]; exact ⟨rfl, rfl⟩

/-- C5: For every input to `createShop` and any fault scenario, every
shop row of the resulting state is either a pre-existing row or carries
the database's `CURRENT_DATE` as its establish date.  `ICreateShopInfo`
carries no date field, so no caller-supplied value flows into the
`EstablishDate` column — the inserted date is determined by the
server-side clock alone. -/
theorem createShop_establishdate_is_current_date
    (shopInfo : ICreateShopInfo) (faultAt : Option Nat) (db : DB) :
    ∀ r ∈ (runWrite (.createShop shopInfo) faultAt db).db.shops,
      r ∈ db.shops ∨ r.establishdate = db.currentDate := by
  rcases runWrite_db_cases (.createShop shopInfo) faultAt db with hdb | hok
  · rw [hdb]
    exact fun r hr => Or.inl hr
  · rw [applyMut, insertShopsStmt] at hok
    split at hok
    · injection hok with hok
      rw [← hok]
      intro r hr
      rcases List.mem_append.mp hr with hold | hnew
      · exact Or.inl hold
      · rw [List.mem_singleton.mp hnew]
        exact Or.inr rfl
    · exact absurd hok (by simp)

/-- Witness for C5: creating a shop in `dbEx` (owner `"1"` exists)
produces the new row with `shopid` `"2"` whose establish date is
`dbEx.currentDate = "2024-01-01"`, not anything from the input. -/
theorem createShop_establishdate_is_current_date_witness :
    (⟨"2", "S", "2024-01-01", "d", "1"⟩ : ShopRow) ∈
      (runWrite (.createShop ⟨"S", "d", "1"⟩) none dbEx).db.shops ∧
    ((⟨"2", "S", "2024-01-01", "d", "1"⟩ : ShopRow) ∈ dbEx.shops ∨
      (⟨"2", "S", "2024-01-01", "d", "1"⟩ : ShopRow).establishdate =
        dbEx.currentDate) :=
  ⟨by decide,
    createShop_establishdate_is_current_date ⟨"S", "d", "1"⟩ none dbEx
      ⟨"2", "S", "2024-01-01", "d", "1"⟩ (by decide)⟩

/-- C6: For every valid signup input — an email not already present,
plus first name, last name, date of birth, and password — running
`createUser` with that input and then `getUserInfoByEmail` with the
same email returns exactly one record, whose `firstname`, `lastname`,
`email`, `dob` and `password` fields equal the input's (the password is
stored as supplied), and whose `userid` is the freshly assigned serial
id. -/
theorem createUser_then_getUserInfoByEmail
    (userInfo : ISignUpInfo) (db : DB)
    (h : ∀ u ∈ db.users, u.email ≠ userInfo.email) :
    getUserInfoByEmail userInfo.email
        (runWrite (.createUser userInfo) none db).db =
      [⟨toString db.nextUserId, userInfo.firstname, userInfo.lastname,
        userInfo.email, userInfo.dob, userInfo.password⟩] := by
  have hany : (db.users.any fun u => u.email = userInfo.email) = false := by
    simp only [List.any_eq_false, decide_eq_true_eq]
    exact h
  have hok : applyMut (.createUser userInfo) db = .ok
      { db with
        users := db.users ++ [⟨toString db.nextUserId, userInfo.email,
          userInfo.firstname, userInfo.lastname, userInfo.dob,
          userInfo.password⟩]
        nextUserId := db.nextUserId + 1 } := by
    rw [applyMut, insertUsersStmt, if_neg]
    simp [hany]
  rw [(runWrite_ok _ db _ hok).1]
  rw [getUserInfoByEmail, userInfoView]
  simp only [List.map_append, List.map_cons, List.map_nil,
    List.filter_append]
  rw [List.filter_eq_nil_iff.mpr, List.nil_append]
  · rw [List.filter_cons_of_pos (by simp)]
    rfl
  · intro a ha
    obtain ⟨u, hu, rfl⟩ := List.mem_map.mp ha
    simpa using h u hu

/-- Witness for C6: signing up `new@b.c` in `dbEx` (where that email is
absent) and fetching by the same email returns the one inserted record
with matching fields. -/
theorem createUser_then_getUserInfoByEmail_witness :
    (∀ u ∈ dbEx.users,
      u.email ≠ (ISignUpInfo.mk "new@b.c" "X" "Y" "2001-02-03" "p").email) ∧
    getUserInfoByEmail "new@b.c"
        (runWrite (.createUser ⟨"new@b.c", "X", "Y", "2001-02-03", "p"⟩)
          none dbEx).db =
      [⟨"2", "X", "Y", "new@b.c", "2001-02-03", "p"⟩] :=
  have h : ∀ u ∈ dbEx.users,
      u.email ≠ (ISignUpInfo.mk "new@b.c" "X" "Y" "2001-02-03" "p").email :=
    by decide
  ⟨h, createUser_then_getUserInfoByEmail
    ⟨"new@b.c", "X", "Y", "2001-02-03", "p"⟩ dbEx h⟩

/-- C9: For every email and password, `getUserByEmailAndPassword`
returns exactly the `UserInfoView` rows whose stored `email` equals the
given email and whose stored `password` equals, as a plain string, the
given password — literal string equality, with no hashing or other
transformation of the supplied password. -/
theorem getUserByEmailAndPassword_exact
    (email password : String) (db : DB) (u : IUserInfoView) :
    u ∈ getUserByEmailAndPassword email password db ↔
      u ∈ userInfoView db ∧ u.email = email ∧ u.password = password := by
  rw [getUserByEmailAndPassword, List.mem_filter]
  simp

/-- C10: `updateUserData` never changes any row's `userid`: its
`UPDATE` sets `userid` to `newUserInfo.userid` exactly on the rows
whose `userid` already equals that value, so for every input, fault
scenario and database state, the sequence of `userid`s of the `Users`
table is unchanged (only the other five columns can change). -/
theorem updateUserData_preserves_userids
    (newUserInfo : IUserInfoView) (faultAt : Option Nat) (db : DB) :
    ((runWrite (.updateUserData newUserInfo) faultAt db).db.users).map
        (fun u => u.userid) =
      db.users.map fun u => u.userid := by
  rcases runWrite_db_cases (.updateUserData newUserInfo) faultAt db
    with hdb | hok
  · rw [hdb]
  · rw [applyMut, updateUsersStmt] at hok
    split at hok
    · exact absurd hok (by simp)
    · injection hok with hok
      rw [← hok]
      show (db.users.map _).map _ = _
      rw [List.map_map]
      apply List.map_congr_left
      intro u _
      by_cases hc : u.userid = newUserInfo.userid
      · simp [hc]
      · simp [hc]

/-- Whether a statement mutates a table (an `INSERT` or `UPDATE`), as
opposed to transaction control (`BEGIN`/`COMMIT`/`ROLLBACK`) or a
lock. -/
def isMutStmt : Stmt → Bool
  | .insertUsers => true
  | .insertShops => true
  | .insertSellers => true
  | .insertProducts => true
  | .insertOrders => true
  | .updateProducts => true
  | .updateUsers => true
  | _ => false

/-- Counterexample to C7's statement count: the successful path of
`setProductQuantity` issues four statements — `BEGIN`, the exclusive
table lock, the `UPDATE`, `COMMIT` — so its write transaction is not
"up to three statements". -/
theorem setProductQuantity_trace_has_four_statements :
    (runWrite (.setProductQuantity "1" "1" 7) none dbEx).ret = some () ∧
    (runWrite (.setProductQuantity "1" "1" 7) none dbEx).trace =
      [.begin, .lockTable "Products", .updateProducts, .commit] ∧
    ¬ (runWrite (.setProductQuantity "1" "1" 7) none dbEx).trace.length ≤ 3 := by
  refine ⟨rfl, rfl, ?_⟩
  decide

/-- C7 (amended): Every write operation's successful path issues, in
order: `BEGIN`, then — for `setProductQuantity` and `updateUserData`
only — one exclusive table-lock statement on the affected table
(`Products` resp. `Users`), then exactly one mutating statement, then
`COMMIT`: a single write transaction of up to four statements (three
for the non-locking operations). -/
theorem write_success_trace (op : WriteOp) (faultAt : Option Nat) (db : DB)
    (h : (runWrite op faultAt db).ret = some ()) :
    (runWrite op faultAt db).trace =
      (match op with
      | .createUser _ => [.begin, .insertUsers, .commit]
      | .createShop _ => [.begin, .insertShops, .commit]
      | .makeSeller _ => [.begin, .insertSellers, .commit]
      | .createProduct _ => [.begin, .insertProducts, .commit]
      | .createOrder _ => [.begin, .insertOrders, .commit]
      | .setProductQuantity _ _ _ =>
        [.begin, .lockTable "Products", .updateProducts, .commit]
      | .updateUserData _ =>
        [.begin, .lockTable "Users", .updateUsers, .commit]) ∧
    ((runWrite op faultAt db).trace.filter isMutStmt).length = 1 ∧
    (runWrite op faultAt db).trace.length ≤ 4 := by
  unfold runWrite at h ⊢
  split at h
  · exact absurd h (by simp)
  next h0 =>
    split at h
    next t hlock =>
      split at h
      · exact absurd h (by simp)
      next h1 =>
        split at h
        · exact absurd h (by simp)
        next h2 =>
          split at h
          · exact absurd h (by simp)
          next db' heq =>
            split at h
            · exact absurd h (by simp)
            next h3 =>
              simp only [if_neg h0, if_neg h1, if_neg h2, if_neg h3, heq]
              cases op <;> simp_all [lockOf, mutStmtOf, isMutStmt]
    next hlock =>
      split at h
      · exact absurd h (by simp)
      next h1 =>
        split at h
        · exact absurd h (by simp)
        next db' heq =>
          split at h
          · exact absurd h (by simp)
          next h2 =>
            simp only [if_neg h0, if_neg h1, if_neg h2, heq]
            cases op <;> simp_all [lockOf, mutStmtOf, isMutStmt]

/-- Witness for C7 (amended): the successful `setProductQuantity` call
on `dbEx` issues exactly `BEGIN`, `LOCK TABLE Products`, the `UPDATE`,
`COMMIT`. -/
theorem write_success_trace_witness :
    (runWrite (.setProductQuantity "1" "1" 9) none dbEx).ret = some () ∧
    ((runWrite (.setProductQuantity "1" "1" 9) none dbEx).trace =
        [.begin, .lockTable "Products", .updateProducts, .commit] ∧
      ((runWrite (.setProductQuantity "1" "1" 9) none
          dbEx).trace.filter isMutStmt).length = 1 ∧
      (runWrite (.setProductQuantity "1" "1" 9) none dbEx).trace.length ≤ 4) :=
  have h : (runWrite (.setProductQuantity "1" "1" 9) none dbEx).ret
      = some () := rfl
  ⟨h, write_success_trace (.setProductQuantity "1" "1" 9) none dbEx h⟩

/-- Counterexample to C8: starting from `dbEx`, whose only product has
quantity `5`, the call `setProductQuantity "1" "1" (-1)` commits and
leaves a product row with negative quantity — the operation performs no
check on the supplied value, so it does not preserve the
non-negativity invariant. -/
theorem setProductQuantity_breaks_nonnegativity :
    (∀ p ∈ dbEx.products, 0 ≤ p.quantity) ∧
    ∃ p ∈ (runWrite (.setProductQuantity "1" "1" (-1)) none dbEx).db.products,
      p.quantity < 0 := by
  decide

/-- The quantity-carrying inputs of a write operation are
non-negative: the created product's `quantity` for `createProduct`,
the new quantity for `setProductQuantity`; no condition on the other
operations. -/
def quantityInputsNonneg : WriteOp → Prop
  | .createProduct productInfo => 0 ≤ productInfo.quantity
  | .setProductQuantity _ _ newQuantity => 0 ≤ newQuantity
  | _ => True

/-- C8 (amended): The invariant that every product's quantity is
non-negative is preserved by every operation of the module *provided
the caller passes a non-negative quantity*: neither `createProduct`
nor `setProductQuantity` checks the supplied value, so the invariant
holds after any operation, in any fault scenario, only under that
assumption on the input. -/
theorem quantity_nonneg_preserved_for_nonneg_inputs
    (op : WriteOp) (faultAt : Option Nat) (db : DB)
    (hop : quantityInputsNonneg op)
    (hdb : ∀ p ∈ db.products, 0 ≤ p.quantity) :
    ∀ p ∈ (runWrite op faultAt db).db.products, 0 ≤ p.quantity := by
  rcases runWrite_db_cases op faultAt db with hsame | hok
  · rw [hsame]; exact hdb
  · cases op with
    | createUser userInfo =>
      rw [applyMut, insertUsersStmt] at hok
      split at hok
      · exact absurd hok (by simp)
      · injection hok with hok
        rw [← hok]
        exact hdb
    | createShop shopInfo =>
      rw [applyMut, insertShopsStmt] at hok
      split at hok
      · injection hok with hok
        rw [← hok]
        exact hdb
      · exact absurd hok (by simp)
    | makeSeller userID =>
      rw [applyMut, insertSellersStmt] at hok
      split at hok
      · exact absurd hok (by simp)
      · split at hok
        · injection hok with hok
          rw [← hok]
          exact hdb
        · exact absurd hok (by simp)
    | createProduct productInfo =>
      rw [applyMut, insertProductsStmt] at hok
      split at hok
      · injection hok with hok
        rw [← hok]
        intro p hp
        rcases List.mem_append.mp hp with hold | hnew
        · exact hdb p hold
        · rw [List.mem_singleton.mp hnew]
          exact hop
      · exact absurd hok (by simp)
    | createOrder createOrderInfo =>
      rw [applyMut, insertOrdersStmt] at hok
      split at hok
      · exact absurd hok (by simp)
      · split at hok
        · exact absurd hok (by simp)
        · split at hok
          · exact absurd hok (by simp)
          · injection hok with hok
            rw [← hok]
            exact hdb
    | setProductQuantity shopid productid newQuantity =>
      rw [applyMut, updateProductsStmt] at hok
      injection hok with hok
      rw [← hok]
      intro p hp
      obtain ⟨q, hq, rfl⟩ := List.mem_map.mp hp
      by_cases hc : q.shopid = shopid ∧ q.productid = productid
      · simpa [hc] using hop
      · simpa [hc] using hdb q hq
    | updateUserData newUserInfo =>
      rw [applyMut, updateUsersStmt] at hok
      split at hok
      · exact absurd hok (by simp)
      · injection hok with hok
        rw [← hok]
        exact hdb

/-- Witness for C8 (amended): setting the quantity of the existing
product of `dbEx` to the non-negative value `3` leaves every product
quantity non-negative. -/
theorem quantity_nonneg_preserved_for_nonneg_inputs_witness :
    quantityInputsNonneg (.setProductQuantity "1" "1" 3) ∧
    (∀ p ∈ dbEx.products, 0 ≤ p.quantity) ∧
    ∀ p ∈ (runWrite (.setProductQuantity "1" "1" 3) none dbEx).db.products,
      0 ≤ p.quantity :=
  have hop : quantityInputsNonneg (.setProductQuantity "1" "1" 3) := by
    show (0 : Int) ≤ 3
    decide
  have hdb : ∀ p ∈ dbEx.products, 0 ≤ p.quantity := by decide
  ⟨hop, hdb,
    quantity_nonneg_preserved_for_nonneg_inputs _ none dbEx hop hdb⟩

/-- The empty pattern accepts no suffix but the empty one, yet some
suffix of every text is empty: `likeTails` of the empty pattern always
succeeds. -/
theorem likeTails_empty_pattern (t : List Char) :
    likeTails (fun u => u.isEmpty) t = true := by
  induction t with
  | nil => rfl
  | cons d ts ih => simp [likeTails, ih]

/-- A lone `%` pattern matches any text. -/
theorem likeMatch_pct_only (t : List Char) : likeMatch ['%'] t = true := by
  simp [likeMatch, likeTails_empty_pattern]

/-- `likeTails` only depends on the values of its match function. -/
theorem likeTails_congr {f g : List Char → Bool} (h : ∀ u, f u = g u)
    (t : List Char) : likeTails f t = likeTails g t := by
  induction t with
  | nil => simp [likeTails, h]
  | cons d ts ih => simp [likeTails, h, ih]

/-- `likeTails` of a prefix test is the contiguous-containment test. -/
theorem likeTails_isPrefixChars (s t : List Char) :
    likeTails (isPrefixChars s) t = isInfixChars s t := by
  induction t with
  | nil => rfl
  | cons d ts ih => simp [likeTails, isInfixChars, ih]

/-- For a wildcard-free string `s`, the pattern `s ++ "%"` matches
exactly the texts that start with `s`. -/
theorem likeMatch_append_pct (s t : List Char)
    (h : ∀ c ∈ s, c ≠ '%' ∧ c ≠ '_') :
    likeMatch (s ++ ['%']) t = isPrefixChars s t := by
  induction s generalizing t with
  | nil => simp [likeMatch_pct_only, isPrefixChars]
  | cons c cs ih =>
    obtain ⟨hc1, hc2⟩ := h c (List.mem_cons_self c cs)
    have h' : ∀ x ∈ cs, x ≠ '%' ∧ x ≠ '_' :=
      fun x hx => h x (List.mem_cons_of_mem c hx)
    cases t with
    | nil =>
      simp [likeMatch, if_neg hc1, isPrefixChars]
    | cons d ts =>
      simp only [List.cons_append, likeMatch, if_neg hc1, if_neg hc2,
        isPrefixChars]
      congr 1
      exact ih ts h'

/-- For a wildcard-free string `s`, the pattern `% ++ s ++ %` — the one
the search queries build — matches exactly the texts containing `s`
contiguously. -/
theorem likeMatch_pct_wrap (s t : List Char)
    (h : ∀ c ∈ s, c ≠ '%' ∧ c ≠ '_') :
    likeMatch ('%' :: (s ++ ['%'])) t = isInfixChars s t := by
  show (if '%' = '%' then likeTails (likeMatch (s ++ ['%'])) t else _) = _
  rw [if_pos rfl,
    likeTails_congr (fun u => likeMatch_append_pct s u h) t,
    likeTails_isPrefixChars]

/-- Counterexample to C4: the search string `"A"` is contained
case-insensitively in the shop name `"Apple"` of `dbEx`, but
`getShopsLike "A"` returns the empty list: the code lowercases the
`shopname` but not the search string, so `LOWER(shopname) LIKE '%A%'`
never matches an uppercase search character. -/
theorem getShopsLike_misses_uppercase_search :
    getShopsLike "A" dbEx = [] ∧
    shopsContainingCI "A" dbEx =
      [⟨"1", "Apple", "2020-01-01", "fruit", "1"⟩] ∧
    getShopsLike "A" dbEx ≠ shopsContainingCI "A" dbEx := by
  refine ⟨rfl, rfl, ?_⟩
  decide

/-- C4 (amended): For every search string `S` all of whose characters
are LIKE-literal (not `%`, not `_`) and lowercase-invariant (unchanged
by `LOWER`), `getShopsLike S` returns exactly the shop rows whose
`shopname` contains `S` case-insensitively, and
`getProductsOfShopLike shopid S` returns exactly the shop's product
rows whose `name` contains `S` case-insensitively.  For other search
strings the code instead compares `LOWER(name)` against the unescaped,
un-lowercased pattern `'%' + S + '%'`. -/
theorem search_like_is_ci_containment
    (searchStr shopid : String) (db : DB)
    (h : ∀ c ∈ searchStr.data, c ≠ '%' ∧ c ≠ '_' ∧ c.toLower = c) :
    getShopsLike searchStr db = shopsContainingCI searchStr db ∧
    getProductsOfShopLike shopid searchStr db =
      productsOfShopContainingCI shopid searchStr db := by
  have hnw : ∀ c ∈ searchStr.data, c ≠ '%' ∧ c ≠ '_' :=
    fun c hc => ⟨(h c hc).1, (h c hc).2.1⟩
  have hmap : searchStr.data.map Char.toLower = searchStr.data :=
    (List.map_congr_left fun c hc => (h c hc).2.2).trans
      (List.map_id searchStr.data)
  have hpt : ∀ name : String,
      likeMatch ('%' :: (searchStr.data ++ ['%'])) (lowerStr name) =
        containsCI name searchStr := by
    intro name
    rw [likeMatch_pct_wrap _ _ hnw, containsCI, hmap]
  constructor
  · rw [getShopsLike, shopsContainingCI]
    exact List.filter_congr fun s _ => hpt s.shopname
  · rw [getProductsOfShopLike, productsOfShopContainingCI]
    refine List.filter_congr fun p _ => ?_
    simp only [hpt]

/-- Witness for C4 (amended): the search string `"pp"` is wildcard-free
and lowercase, and on `dbEx` both searches agree with the
case-insensitive-containment reading. -/
theorem search_like_is_ci_containment_witness :
    (∀ c ∈ ("pp" : String).data, c ≠ '%' ∧ c ≠ '_' ∧ c.toLower = c) ∧
    (getShopsLike "pp" dbEx = shopsContainingCI "pp" dbEx ∧
      getProductsOfShopLike "1" "pp" dbEx =
        productsOfShopContainingCI "1" "pp" dbEx) :=
  have h : ∀ c ∈ ("pp" : String).data, c ≠ '%' ∧ c ≠ '_' ∧ c.toLower = c :=
    by decide
  ⟨h, search_like_is_ci_containment "pp" "1" dbEx h⟩
